import Mathlib

/-!
Shallow embedding of the bearer-token authentication/authorization module
(`src/auth/auth.py`) and proofs of its specified properties.

The module's pipeline is: extract the bearer token from the request's
`Authorization` header (`get_token_auth_header`), fetch the identity
provider's JWKS and select the signing key matching the token's `kid`
(`get_rsa`), decode and validate the token (`verify_decode_jwt`, delegating
the cryptographic decode to the `jose` library), check the required
permission against the decoded payload (`check_permissions`), and compose
everything into a decorator (`requires_auth`).

Pure functions are embedded as Lean functions; exception raising becomes
`Except`; the two external effects (the `urlopen` network fetch of the JWKS
and the `jose` decode) are passed in explicitly as values/functions, which
makes the source's evaluation order and short-circuiting explicit.
-/

namespace Auth

/-- Module-level constant `AUTH0_DOMAIN` from the source. -/
def AUTH0_DOMAIN : String := "dev-eid5kfny.us.auth0.com"

/-- Module-level constant `ALGORITHMS` from the source. -/
def ALGORITHMS : List String := ["RS256"]

/-- Module-level constant `API_AUDIENCE` from the source. -/
def API_AUDIENCE : String := "stock"

/-- The `AuthError` exception: an error dict of code and description plus an
HTTP status code. -/
structure AuthError where
  code : String
  description : String
  status_code : Nat
deriving DecidableEq, Repr

/-! ### Python string primitives

The source uses `str.split(' ')` and `str.lower()`. Lean's own string
functions do not kernel-reduce, so we embed the two Python primitives at the
character level, with Python's semantics: `split` with an explicit separator
keeps empty parts and yields `[""]` on the empty string; `lower` lowercases
ASCII letters (the only case the scheme-name comparison exercises). -/

/-- ASCII lowercasing of one character, as Python's `str.lower` does on
ASCII input. -/
def lowerChar (c : Char) : Char :=
  if 'A' ≤ c ∧ c ≤ 'Z' then Char.ofNat (c.toNat + 32) else c

/-- Split a character list on every occurrence of `sep`, keeping empty
parts: the semantics of Python's `str.split(sep)` with an explicit
separator. -/
def splitChar (sep : Char) : List Char → List (List Char)
  | [] => [[]]
  | c :: cs =>
    let rest := splitChar sep cs
    if c = sep then [] :: rest
    else
      match rest with
      | [] => [[c]]
      | r :: rs => (c :: r) :: rs

/-- Python's `s.split(sep)` on strings. -/
def pySplit (sep : Char) (s : String) : List String :=
  (splitChar sep s.data).map (fun cs => String.mk cs)

/-- Python's `s.lower()` on strings (ASCII). -/
def pyLower (s : String) : String := String.mk (s.data.map lowerChar)

/-! ### Header extraction: `get_token_auth_header`

The request is represented by its `Authorization` header value:
`request.headers.get("Authorization", None)` is an `Option String`.
Python's `if not header` treats both `None` and the empty string as
missing. -/

/-- Function `get_token_auth_header()` from the source: extract the bearer token
from the request's `Authorization` header value. -/
def get_token_auth_header (header : Option String) : Except AuthError String :=
  match header with
  | none =>
    .error ⟨"invalid_header", "Authorization header is missing.", 401⟩
  | some h =>
    if h = "" then
      .error ⟨"invalid_header", "Authorization header is missing.", 401⟩
    else
      let header_split := pySplit ' ' h
      if pyLower (header_split.headD "") ≠ "bearer" ∨ header_split.length ≠ 2 then
        .error ⟨"invalid_header", "Authorization header is malformed.", 401⟩
      else
        .ok (header_split.getD 1 "")

/-! ### Permission checking: `check_permissions` -/

/-- A decoded JWT payload (claim set): the standard claims the verifier
validates, the optional `permissions` claim the RBAC check reads, and the
remaining claims, opaque to this module. -/
structure ClaimSet where
  aud : String
  iss : String
  exp : Int
  permissions : Option (List String)
  other : List (String × String)
deriving DecidableEq, Repr

/-- Function `check_permissions(permission, payload)` from the source. -/
def check_permissions (permission : String) (payload : ClaimSet) :
    Except AuthError Bool :=
  match payload.permissions with
  | none =>
    .error ⟨"invalid_permission", "Permissions not included in payload", 400⟩
  | some perms =>
    if permission ∉ perms then
      .error ⟨"unauthorized_permission",
        " Permission string not in the payload permissions array", 401⟩
    else
      .ok true

/-! ### Theorems: header extraction (C4) and permission check (C3) -/

/-- Splitting any string on a separator never yields the empty list
(Python's `split` always returns at least one part). -/
theorem splitChar_ne_nil (sep : Char) (cs : List Char) :
    splitChar sep cs ≠ [] := by
  induction cs with
  | nil => simp [splitChar]
  | cons c cs ih =>
    simp only [splitChar]
    split
    · simp
    · split
      · simp
      · simp

/-- The empty string splits to `[""]`. -/
theorem pySplit_empty (sep : Char) : pySplit sep "" = [""] := rfl

/-- C3: `check_permissions` fails with `invalid_permission`/400 when the
payload has no `permissions` entry; fails with `unauthorized_permission`/401
when the entry exists but does not contain the required permission string
(exact, case-sensitive list membership); and otherwise returns `true`. -/
theorem check_permissions_spec (permission : String) (payload : ClaimSet) :
    (payload.permissions = none →
      check_permissions permission payload =
        .error ⟨"invalid_permission", "Permissions not included in payload", 400⟩) ∧
    (∀ perms, payload.permissions = some perms → permission ∉ perms →
      check_permissions permission payload =
        .error ⟨"unauthorized_permission",
          " Permission string not in the payload permissions array", 401⟩) ∧
    (∀ perms, payload.permissions = some perms → permission ∈ perms →
      check_permissions permission payload = .ok true) := by
  refine ⟨fun hnone => ?_, fun perms hsome hnot => ?_, fun perms hsome hmem => ?_⟩
  · simp [check_permissions, hnone]
  · simp [check_permissions, hsome, hnot]
  · simp [check_permissions, hsome, hmem]

/-- Witness for C3: a payload with `permissions = ["get:drinks"]` passes the
check for `"get:drinks"`, and a payload without a `permissions` entry fails
with `invalid_permission`/400. -/
theorem check_permissions_spec_witness :
    check_permissions "get:drinks"
        ⟨"stock", "https://dev-eid5kfny.us.auth0.com/", 99, some ["get:drinks"], []⟩ =
      .ok true ∧
    check_permissions "get:drinks" ⟨"stock", "", 99, none, []⟩ =
      .error ⟨"invalid_permission", "Permissions not included in payload", 400⟩ := by
  constructor
  · exact (check_permissions_spec "get:drinks"
      ⟨"stock", "https://dev-eid5kfny.us.auth0.com/", 99, some ["get:drinks"], []⟩).2.2
      ["get:drinks"] rfl (by decide)
  · exact (check_permissions_spec "get:drinks"
      ⟨"stock", "", 99, none, []⟩).1 rfl

/-- C4: header extraction returns `t` exactly when the header is present and
splits (on single spaces, Python `split(' ')`) into exactly two parts whose
first lowercases to `bearer`, `t` being the second part verbatim; in every
other case (absent header included) it fails with code `invalid_header` and
status 401. -/
theorem get_token_auth_header_spec (header : Option String) (t : String) :
    (get_token_auth_header header = .ok t ↔
      ∃ s p, header = some s ∧ pySplit ' ' s = [p, t] ∧ pyLower p = "bearer") ∧
    (∀ e, get_token_auth_header header = .error e →
      e.code = "invalid_header" ∧ e.status_code = 401) := by
  constructor
  · constructor
    · intro hok
      match header with
      | none => simp [get_token_auth_header] at hok
      | some s =>
        refine ⟨s, ?_⟩
        simp only [get_token_auth_header] at hok
        split at hok
        · exact absurd hok (by simp)
        · split at hok
          · exact absurd hok (by simp)
          · rename_i hcond
            push_neg at hcond
            obtain ⟨hlow, hlen⟩ := hcond
            match hsplit : pySplit ' ' s with
            | [] => simp [hsplit] at hlen
            | [a] => simp [hsplit] at hlen
            | [a, b] =>
              simp only [hsplit, List.headD, List.getD] at hlow hok
              simp only [Except.ok.injEq] at hok
              have hbt : b = t := by simpa using hok
              exact ⟨a, rfl, by rw [hbt], by simpa using hlow⟩
            | a :: b :: c :: rest => simp [hsplit] at hlen
    · rintro ⟨s, p, rfl, hsplit, hlow⟩
      have hne : s ≠ "" := by
        intro h
        rw [h, pySplit_empty] at hsplit
        simp at hsplit
      simp [get_token_auth_header, hne, hsplit, hlow]
  · intro e herr
    match header with
    | none =>
      simp only [get_token_auth_header, Except.error.injEq] at herr
      simp [← herr]
    | some s =>
      simp only [get_token_auth_header] at herr
      split at herr
      · simp only [Except.error.injEq] at herr
        simp [← herr]
      · split at herr
        · simp only [Except.error.injEq] at herr
          simp [← herr]
        · exact absurd herr (by simp)

/-- Witness for C4: `"Bearer abc"` yields the token `"abc"`; both conjuncts
of the specification theorem applied at that concrete header. -/
theorem get_token_auth_header_spec_witness :
    get_token_auth_header (some "Bearer abc") = .ok "abc" ∧
    (get_token_auth_header none =
        .error ⟨"invalid_header", "Authorization header is missing.", 401⟩ →
      (⟨"invalid_header", "Authorization header is missing.", 401⟩ : AuthError).code =
        "invalid_header") := by
  constructor
  · exact (get_token_auth_header_spec (some "Bearer abc") "abc").1.2
      ⟨"Bearer abc", "Bearer", rfl, by decide, by decide⟩
  · intro h
    exact ((get_token_auth_header_spec none "abc").2 _ h).1

/-! ### Key resolution: `get_rsa`

The network fetch `urlopen(url).read()` plus `json.loads` is represented by
its outcome, an `Except NetErr Jwks`: an uncaught transport/JSON exception,
or the parsed key-set document. The token reaches `get_rsa` as the
structural view `jose`'s `get_unverified_header` and `decode` take of the
compact string: its header's optional `kid` and `alg`, and its payload. -/

/-- The URL the source builds for the key-set fetch:
`f'http://{AUTH0_DOMAIN}/.well-known/jwks.json'`. -/
def jwks_url : String := "http://" ++ AUTH0_DOMAIN ++ "/.well-known/jwks.json"

/-- One entry of the JWKS document's `keys` array: the five fields the
source reads (in the order it copies them into `rsa`). -/
structure JWK where
  kty : String
  kid : String
  use : String
  n : String
  e : String
deriving DecidableEq, Repr

/-- The JWKS document: a JSON object with a `keys` array. -/
structure Jwks where
  keys : List JWK
deriving DecidableEq, Repr

/-- An exception escaping the network fetch or JSON parse (`urlopen` /
`json.loads`): not an `AuthError`, propagated uncaught. -/
structure NetErr where
  msg : String
deriving DecidableEq, Repr

/-- An exception propagating out of the module: either a raised `AuthError`
or an uncaught fetch error. -/
inductive Raised where
  | authError (err : AuthError)
  | netError (err : NetErr)
deriving DecidableEq, Repr

/-- A token as the `jose` library reads it structurally: the unverified
header's optional `kid` and its `alg`, and the payload claims. -/
structure Token where
  kid : Option String
  alg : String
  payload : ClaimSet
deriving Repr

/-- The `for key in jwks['keys']` loop of `get_rsa`: scan for the first
entry whose `kid` equals the token header's, `break` on a match. -/
def find_key (kid : String) : List JWK → Option JWK
  | [] => none
  | k :: ks => if k.kid = kid then some k else find_key kid ks

/-- Function `get_rsa(token)` from the source. The fetch of `jwks_url` is
the first statement of its body, so a fetch failure propagates before the
token's header is even inspected; then the header must carry a `kid`; then
the key set is scanned, and the matched entry's `kty`, `kid`, `use`, `n`,
`e` are copied into the returned `rsa` value. -/
def get_rsa (fetched : Except NetErr Jwks) (token : Token) :
    Except Raised JWK :=
  match fetched with
  | .error e => .error (.netError e)
  | .ok jwks =>
    match token.kid with
    | none =>
      .error (.authError ⟨"invalid_header", "key id missing in token header", 401⟩)
    | some kid =>
      match find_key kid jwks.keys with
      | some key => .ok ⟨key.kty, key.kid, key.use, key.n, key.e⟩
      | none =>
        .error (.authError ⟨"invalid_header", "Token header is malformed.", 401⟩)

/-- The two externally visible effects of `get_rsa`, in order. -/
inductive FetchEvent where
  | fetchJwks
  | readTokenHeader
deriving DecidableEq, Repr

/-- Function `get_rsa` with its effect order made explicit: the JWKS fetch
happens first (the `urlopen` call is the first statement of the body), and
only if it returns is the token's unverified header read. -/
def get_rsa_traced (fetched : Except NetErr Jwks) (token : Token) :
    List FetchEvent × Except Raised JWK :=
  match fetched with
  | .error e => ([.fetchJwks], .error (.netError e))
  | .ok jwks => ([.fetchJwks, .readTokenHeader], get_rsa (.ok jwks) token)

/-! ### Token verification: `verify_decode_jwt`

The `jose` call `jwt.decode(token, rsa, algorithms=ALGORITHMS,
audience=API_AUDIENCE, issuer=f'https://{AUTH0_DOMAIN}/')` is library code,
not part of the repository; `verify_decode_jwt` is embedded parametrically
in its outcome, classified by the exception classes the source's `except`
clauses catch. -/

/-- Outcome of the `jose` `jwt.decode` call, classified by the exception
classes the source catches: success, `ExpiredSignatureError`,
`JWTClaimsError`, or any other exception. -/
inductive DecodeResult where
  | ok (payload : ClaimSet)
  | expiredSignatureError
  | jwtClaimsError
  | otherError
deriving DecidableEq, Repr

/-- Function `verify_decode_jwt(token)` from the source: resolve the RSA
key with `get_rsa`, run the `jose` decode (the parameter `decode`, applied
to the token and the resolved key), and map its exceptions to `AuthError`s
in the source's `except`-clause order: `ExpiredSignatureError` →
`token_expired`/401, `JWTClaimsError` → `invalid_claims`/401, any other
exception → `invalid_token`/400. -/
def verify_decode_jwt (decode : Token → JWK → DecodeResult)
    (fetched : Except NetErr Jwks) (token : Token) : Except Raised ClaimSet :=
  match get_rsa fetched token with
  | .error e => .error e
  | .ok rsa =>
    match decode token rsa with
    | .ok payload => .ok payload
    | .expiredSignatureError =>
      .error (.authError ⟨"token_expired", "Token expired.", 401⟩)
    | .jwtClaimsError =>
      .error (.authError ⟨"invalid_claims",
        "Incorrect claims. Please, check the audience and issuer.", 401⟩)
    | .otherError =>
      .error (.authError ⟨"invalid_token",
        "Unable to decode authentication token.", 400⟩)

/-- Modelled from the spec: the `jose` library's `jwt.decode` (absent from
the repository's files) as the spec describes it — checked in precedence
order, signature first: the token must use an accepted algorithm and carry
a valid signature under the given key (otherwise some decode/signature
exception, `otherError` here), then the expiry claim must not have passed
(`ExpiredSignatureError`), then the audience and issuer claims must equal
the configured values exactly (`JWTClaimsError`); on success the decoded
payload is returned unmodified. `sigOk` abstracts cryptographic signature
validity of the token under a key. -/
def jose_decode (now : Int) (sigOk : Token → JWK → Bool)
    (algorithms : List String) (audience issuer : String)
    (token : Token) (key : JWK) : DecodeResult :=
  if ¬(token.alg ∈ algorithms ∧ sigOk token key) then .otherError
  else if token.payload.exp ≤ now then .expiredSignatureError
  else if token.payload.aud ≠ audience ∨ token.payload.iss ≠ issuer then
    .jwtClaimsError
  else .ok token.payload

/-- Function `verify_decode_jwt` with the decode instantiated to the `jose`
model at the arguments the source passes: `algorithms=ALGORITHMS`,
`audience=API_AUDIENCE`, `issuer=f'https://{AUTH0_DOMAIN}/'`. -/
def verify_decode_jwt_jose (now : Int) (sigOk : Token → JWK → Bool)
    (fetched : Except NetErr Jwks) (token : Token) : Except Raised ClaimSet :=
  verify_decode_jwt
    (jose_decode now sigOk ALGORITHMS API_AUDIENCE
      ("https://" ++ AUTH0_DOMAIN ++ "/"))
    fetched token

/-! ### The gate: `requires_auth` -/

/-- The environment one guarded call runs in: the request's `Authorization`
header value, the outcome of the JWKS fetch, the structural parse of the
extracted compact token string, and the `jose` decode outcome. -/
structure AuthEnv where
  header : Option String
  fetched : Except NetErr Jwks
  parse : String → Token
  decode : Token → JWK → DecodeResult

/-- Decorator `requires_auth(permission)` from the source, applied to a
protected operation `f`: the produced wrapper runs `get_token_auth_header`,
then `verify_decode_jwt`, then `check_permissions`, and only then calls
`f(payload, ...)`, returning its result unchanged; a raised exception at
any step propagates and the later steps — `f` included — never run. -/
def requires_auth {α : Type} (env : AuthEnv) (permission : String)
    (f : ClaimSet → α) : Except Raised α :=
  match get_token_auth_header env.header with
  | .error e => .error (.authError e)
  | .ok tokenStr =>
    match verify_decode_jwt env.decode env.fetched (env.parse tokenStr) with
    | .error e => .error e
    | .ok payload =>
      match check_permissions permission payload with
      | .error e => .error (.authError e)
      | .ok _ => .ok (f payload)

/-- The default value of the decorator's `permission` parameter in the
source: `def requires_auth(permission='')`. -/
def requires_auth_default_permission : String := ""

/-! ### Theorems: key resolution (C5, C9) -/

/-- First-match-wins: scanning a list that decomposes as a prefix without
the wanted key identifier, the first matching entry, and a tail, returns
that first matching entry. -/
theorem find_key_append (kid : String) (ks1 ks2 : List JWK) (k : JWK)
    (h1 : ∀ k' ∈ ks1, k'.kid ≠ kid) (hk : k.kid = kid) :
    find_key kid (ks1 ++ k :: ks2) = some k := by
  induction ks1 with
  | nil => simp [find_key, hk]
  | cons a ks ih =>
    have ha : a.kid ≠ kid := h1 a (by simp)
    simp only [List.cons_append, find_key, if_neg ha]
    exact ih (fun k' hm => h1 k' (by simp [hm]))

/-- The traced variant of `get_rsa` computes the same result. -/
theorem get_rsa_traced_sound (fetched : Except NetErr Jwks) (token : Token) :
    (get_rsa_traced fetched token).2 = get_rsa fetched token := by
  cases fetched <;> rfl

/-- C5: with a retrieved key set and a token whose header carries a key
identifier, `get_rsa` is a linear first-match scan of the `keys` array: if
the array decomposes as a prefix with no matching identifier followed by a
matching entry, that entry is returned (its five JWKS fields copied); if
the scan exhausts the array with no match, the call fails with
`invalid_header`/401, description "Token header is malformed." -/
theorem get_rsa_scan_spec (jwks : Jwks) (token : Token) (kid : String)
    (hkid : token.kid = some kid) :
    (∀ ks1 k ks2, jwks.keys = ks1 ++ k :: ks2 →
      (∀ k' ∈ ks1, k'.kid ≠ kid) → k.kid = kid →
      get_rsa (.ok jwks) token = .ok ⟨k.kty, k.kid, k.use, k.n, k.e⟩) ∧
    (find_key kid jwks.keys = none →
      get_rsa (.ok jwks) token =
        .error (.authError ⟨"invalid_header", "Token header is malformed.", 401⟩)) := by
  constructor
  · intro ks1 k ks2 hdec h1 hk
    have hfind : find_key kid jwks.keys = some k := by
      rw [hdec]; exact find_key_append kid ks1 ks2 k h1 hk
    simp [get_rsa, hkid, hfind]
  · intro hnone
    simp [get_rsa, hkid, hnone]

/-- Witness for C5: a key set holding two entries with the same key
identifier `k1`; the scan for a token carrying `kid = k1` returns the
first of the two. -/
theorem get_rsa_scan_spec_witness :
    get_rsa
        (.ok ⟨[⟨"RSA", "k1", "sig", "modA", "expA"⟩,
               ⟨"RSA", "k1", "sig", "modB", "expB"⟩]⟩)
        ⟨some "k1", "RS256", ⟨"stock", "", 0, none, []⟩⟩ =
      .ok ⟨"RSA", "k1", "sig", "modA", "expA"⟩ :=
  (get_rsa_scan_spec
      ⟨[⟨"RSA", "k1", "sig", "modA", "expA"⟩, ⟨"RSA", "k1", "sig", "modB", "expB"⟩]⟩
      ⟨some "k1", "RS256", ⟨"stock", "", 0, none, []⟩⟩ "k1" rfl).1
    [] ⟨"RSA", "k1", "sig", "modA", "expA"⟩ [⟨"RSA", "k1", "sig", "modB", "expB"⟩]
    rfl (by simp) rfl

/-- C9: `get_rsa` performs the JWKS network fetch before inspecting the
token's header: for every token — one whose header lacks a key identifier
included — the first recorded effect is the fetch, and when the fetch
fails, that failure is the result, preempting the missing-key-id
`invalid_header` error. -/
theorem get_rsa_fetch_first (token : Token) (jwks : Jwks) (e : NetErr) :
    (get_rsa_traced (.ok jwks) token).1.head? = some .fetchJwks ∧
    (get_rsa_traced (.error e) token).1.head? = some .fetchJwks ∧
    (get_rsa_traced (.error e) token).2 = .error (.netError e) ∧
    get_rsa (.error e) token = .error (.netError e) :=
  ⟨rfl, rfl, rfl, rfl⟩

/-! ### Theorems: verification (C2, C6, C8) -/

/-- C2: once the key is resolved, `verify_decode_jwt` maps the decode
outcome through its `except` clauses in precedence: an expired token
(`ExpiredSignatureError`) yields `token_expired`/401; a claims-validation
failure (`JWTClaimsError`, audience/issuer mismatch included) yields
`invalid_claims`/401; any other decode or signature failure yields
`invalid_token`/400; and a successful decode is returned unchanged. -/
theorem verify_decode_jwt_error_mapping (decode : Token → JWK → DecodeResult)
    (fetched : Except NetErr Jwks) (token : Token) (rsa : JWK)
    (hrsa : get_rsa fetched token = .ok rsa) :
    (decode token rsa = .expiredSignatureError →
      verify_decode_jwt decode fetched token =
        .error (.authError ⟨"token_expired", "Token expired.", 401⟩)) ∧
    (decode token rsa = .jwtClaimsError →
      verify_decode_jwt decode fetched token =
        .error (.authError ⟨"invalid_claims",
          "Incorrect claims. Please, check the audience and issuer.", 401⟩)) ∧
    (decode token rsa = .otherError →
      verify_decode_jwt decode fetched token =
        .error (.authError ⟨"invalid_token",
          "Unable to decode authentication token.", 400⟩)) ∧
    (∀ payload, decode token rsa = .ok payload →
      verify_decode_jwt decode fetched token = .ok payload) := by
  refine ⟨fun h => ?_, fun h => ?_, fun h => ?_, fun payload h => ?_⟩ <;>
    simp [verify_decode_jwt, hrsa, h]

/-- Witness for C2: with a one-entry key set matching the token's key id
and a decode that raises `ExpiredSignatureError`, verification fails with
`token_expired`/401. -/
theorem verify_decode_jwt_error_mapping_witness :
    verify_decode_jwt (fun _ _ => .expiredSignatureError)
        (.ok ⟨[⟨"RSA", "k1", "sig", "modA", "expA"⟩]⟩)
        ⟨some "k1", "RS256", ⟨"stock", "", 0, none, []⟩⟩ =
      .error (.authError ⟨"token_expired", "Token expired.", 401⟩) :=
  (verify_decode_jwt_error_mapping (fun _ _ => .expiredSignatureError)
      (.ok ⟨[⟨"RSA", "k1", "sig", "modA", "expA"⟩]⟩)
      ⟨some "k1", "RS256", ⟨"stock", "", 0, none, []⟩⟩
      ⟨"RSA", "k1", "sig", "modA", "expA"⟩ rfl).1 rfl

/-- C6: under the `jose` model, a token with an accepted algorithm, a valid
signature under the resolved key and an unexpired expiry claim, whose
audience differs from `API_AUDIENCE` or whose issuer differs from
`https://{AUTH0_DOMAIN}/` (the domain with a trailing path separator),
fails verification with `invalid_claims`/401. -/
theorem verify_invalid_claims_on_mismatch (now : Int)
    (sigOk : Token → JWK → Bool) (fetched : Except NetErr Jwks)
    (token : Token) (rsa : JWK)
    (hrsa : get_rsa fetched token = .ok rsa)
    (halg : token.alg ∈ ALGORITHMS)
    (hsig : sigOk token rsa = true)
    (hexp : now < token.payload.exp)
    (hmm : token.payload.aud ≠ API_AUDIENCE ∨
      token.payload.iss ≠ "https://" ++ AUTH0_DOMAIN ++ "/") :
    verify_decode_jwt_jose now sigOk fetched token =
      .error (.authError ⟨"invalid_claims",
        "Incorrect claims. Please, check the audience and issuer.", 401⟩) := by
  have hdec : jose_decode now sigOk ALGORITHMS API_AUDIENCE
      ("https://" ++ AUTH0_DOMAIN ++ "/") token rsa = .jwtClaimsError := by
    simp [jose_decode, halg, hsig, not_le.mpr hexp, hmm]
  simp [verify_decode_jwt_jose, verify_decode_jwt, hrsa, hdec]

/-- Witness for C6: a validly-signed, unexpired token with audience
`"wrong"` (the configured audience is `"stock"`) fails with
`invalid_claims`/401. -/
theorem verify_invalid_claims_on_mismatch_witness :
    verify_decode_jwt_jose 0 (fun _ _ => true)
        (.ok ⟨[⟨"RSA", "k1", "sig", "modA", "expA"⟩]⟩)
        ⟨some "k1", "RS256",
          ⟨"wrong", "https://dev-eid5kfny.us.auth0.com/", 10, none, []⟩⟩ =
      .error (.authError ⟨"invalid_claims",
        "Incorrect claims. Please, check the audience and issuer.", 401⟩) :=
  verify_invalid_claims_on_mismatch 0 (fun _ _ => true)
    (.ok ⟨[⟨"RSA", "k1", "sig", "modA", "expA"⟩]⟩)
    ⟨some "k1", "RS256",
      ⟨"wrong", "https://dev-eid5kfny.us.auth0.com/", 10, none, []⟩⟩
    ⟨"RSA", "k1", "sig", "modA", "expA"⟩ rfl (by decide) rfl (by decide)
    (Or.inl (by decide))

/-- C8: verification is deterministic across repeated calls — verifying the
same token twice against the same fetched key set and decode behaviour
yields identical decoded claim sets. -/
theorem verify_decode_jwt_idempotent (decode : Token → JWK → DecodeResult)
    (fetched : Except NetErr Jwks) (token : Token) (p1 p2 : ClaimSet)
    (h1 : verify_decode_jwt decode fetched token = .ok p1)
    (h2 : verify_decode_jwt decode fetched token = .ok p2) : p1 = p2 := by
  rw [h1] at h2
  exact Except.ok.inj h2

/-- Witness for C8: a concrete token verified twice, both calls returning
the same claim set. -/
theorem verify_decode_jwt_idempotent_witness :
    (⟨"stock", "https://dev-eid5kfny.us.auth0.com/", 10, some ["get:drinks"], []⟩ :
        ClaimSet) =
      ⟨"stock", "https://dev-eid5kfny.us.auth0.com/", 10, some ["get:drinks"], []⟩ :=
  verify_decode_jwt_idempotent
    (fun tok _ => .ok tok.payload)
    (.ok ⟨[⟨"RSA", "k1", "sig", "modA", "expA"⟩]⟩)
    ⟨some "k1", "RS256",
      ⟨"stock", "https://dev-eid5kfny.us.auth0.com/", 10, some ["get:drinks"], []⟩⟩
    ⟨"stock", "https://dev-eid5kfny.us.auth0.com/", 10, some ["get:drinks"], []⟩
    ⟨"stock", "https://dev-eid5kfny.us.auth0.com/", 10, some ["get:drinks"], []⟩
    rfl rfl

/-! ### Theorems: the gate (C1, C10) and the fetch URL (C7) -/

/-- When `check_permissions` returns normally, its value is `true`. -/
theorem check_permissions_ok_true (permission : String) (payload : ClaimSet)
    (b : Bool) (h : check_permissions permission payload = .ok b) : b = true := by
  rcases hp : payload.permissions with _ | perms
  · simp only [check_permissions, hp] at h
    exact absurd h (by simp)
  · simp only [check_permissions, hp] at h
    by_cases hmem : permission ∉ perms
    · rw [if_pos hmem] at h
      simp at h
    · rw [if_neg hmem] at h
      exact (Except.ok.inj h).symm

/-- C1: for every environment, required permission and protected operation
`f`, the guarded operation either succeeds through header extraction, key
resolution plus token verification, and the permission check, calls `f`
with the decoded claim set as its first input and returns `f`'s result
unchanged — or it fails at the first failing step and propagates that
single failure, and then the result is the same for every wrapped
operation, of any result type: the protected operation is never invoked. -/
theorem requires_auth_spec {α : Type} (env : AuthEnv) (permission : String)
    (f : ClaimSet → α) :
    (∃ t payload,
      get_token_auth_header env.header = .ok t ∧
      verify_decode_jwt env.decode env.fetched (env.parse t) = .ok payload ∧
      check_permissions permission payload = .ok true ∧
      requires_auth env permission f = .ok (f payload)) ∨
    (∃ e, requires_auth env permission f = .error e ∧
      ∀ (β : Type) (g : ClaimSet → β),
        requires_auth env permission g = .error e) := by
  rcases hget : get_token_auth_header env.header with e | t
  · exact Or.inr ⟨.authError e, by simp [requires_auth, hget],
      fun β g => by simp [requires_auth, hget]⟩
  · rcases hver : verify_decode_jwt env.decode env.fetched (env.parse t) with e | payload
    · exact Or.inr ⟨e, by simp [requires_auth, hget, hver],
        fun β g => by simp [requires_auth, hget, hver]⟩
    · rcases hchk : check_permissions permission payload with e | b
      · exact Or.inr ⟨.authError e, by simp [requires_auth, hget, hver, hchk],
          fun β g => by simp [requires_auth, hget, hver, hchk]⟩
      · have hb : b = true := check_permissions_ok_true permission payload b hchk
        exact Or.inl ⟨t, payload, rfl, hver, by rw [hchk, hb],
          by simp [requires_auth, hget, hver, hchk]⟩

/-- C10: the decorator's `permission` parameter defaults to the empty
string, and because `check_permissions` is exact list membership, a gate
built with the default fails with `unauthorized_permission`/401 on every
request whose token verifies to a claim set whose `permissions` list does
not literally contain the empty string: the default does not mean "no
permission required". -/
theorem requires_auth_default_denies {α : Type} (env : AuthEnv)
    (f : ClaimSet → α) (t : String) (payload : ClaimSet) (perms : List String)
    (hget : get_token_auth_header env.header = .ok t)
    (hver : verify_decode_jwt env.decode env.fetched (env.parse t) = .ok payload)
    (hperms : payload.permissions = some perms)
    (hnomem : "" ∉ perms) :
    requires_auth_default_permission = "" ∧
    requires_auth env requires_auth_default_permission f =
      .error (.authError ⟨"unauthorized_permission",
        " Permission string not in the payload permissions array", 401⟩) := by
  refine ⟨rfl, ?_⟩
  have hchk : check_permissions requires_auth_default_permission payload =
      .error ⟨"unauthorized_permission",
        " Permission string not in the payload permissions array", 401⟩ := by
    simp [check_permissions, requires_auth_default_permission, hperms, hnomem]
  simp [requires_auth, hget, hver, hchk]

/-- Witness for C10: a request whose token verifies to a claim set with
permissions `["get:drinks"]` is rejected with `unauthorized_permission`/401
by a gate built with the default (empty-string) permission. -/
theorem requires_auth_default_denies_witness :
    requires_auth_default_permission = "" ∧
    requires_auth
        ⟨some "Bearer tok", .ok ⟨[⟨"RSA", "k1", "sig", "modA", "expA"⟩]⟩,
          fun _ => ⟨some "k1", "RS256",
            ⟨"stock", "https://dev-eid5kfny.us.auth0.com/", 10,
              some ["get:drinks"], []⟩⟩,
          fun tok _ => .ok tok.payload⟩
        requires_auth_default_permission (fun payload => payload) =
      .error (.authError ⟨"unauthorized_permission",
        " Permission string not in the payload permissions array", 401⟩) :=
  requires_auth_default_denies
    ⟨some "Bearer tok", .ok ⟨[⟨"RSA", "k1", "sig", "modA", "expA"⟩]⟩,
      fun _ => ⟨some "k1", "RS256",
        ⟨"stock", "https://dev-eid5kfny.us.auth0.com/", 10,
          some ["get:drinks"], []⟩⟩,
      fun tok _ => .ok tok.payload⟩
    (fun payload => payload) "tok"
    ⟨"stock", "https://dev-eid5kfny.us.auth0.com/", 10, some ["get:drinks"], []⟩
    ["get:drinks"] rfl rfl rfl (by decide)

/-- C7 counterexample: the key-set fetch URL the source builds uses plain
`http`, not the secure `https` endpoint the claim names. -/
theorem jwks_url_not_https :
    jwks_url = "http://dev-eid5kfny.us.auth0.com/.well-known/jwks.json" ∧
    jwks_url ≠ "https://dev-eid5kfny.us.auth0.com/.well-known/jwks.json" :=
  ⟨rfl, by decide⟩

/-- C7 (amended): the key-set retrieval is a single GET of
`http://{AUTH0_DOMAIN}/.well-known/jwks.json` — over plain HTTP, not TLS —
and the response is read as a JSON document with a `keys` array whose
entries carry the `kid`, `kty`, `use`, `n`, `e` fields, the matched entry's
five fields being copied into the resolved key. -/
theorem jwks_url_spec :
    jwks_url = "http://" ++ AUTH0_DOMAIN ++ "/.well-known/jwks.json" ∧
    ∀ (jwks : Jwks) (token : Token) (kid : String) (k : JWK),
      token.kid = some kid → find_key kid jwks.keys = some k →
      get_rsa (.ok jwks) token = .ok ⟨k.kty, k.kid, k.use, k.n, k.e⟩ := by
  refine ⟨rfl, fun jwks token kid k hkid hfind => ?_⟩
  simp [get_rsa, hkid, hfind]

end Auth
